import Mathlib

/-!
Shallow embedding of `src/app.py` (healthcare monitoring simulator).

Modelling conventions:
* The three configured modules (the keys of the `MODULES` dict) form the
  inductive type `ModName`; route handlers that receive an arbitrary module
  name take a `String` and look it up with `toModName` (the embedding of
  the `module_name in state` check).
* Wall-clock values (`time.time()`) are rationals; human-readable timestamps
  (`now_local_iso()`) are abstract `String` parameters threaded as oracles.
* Randomness (`random.randint`, `random.uniform`, the 1% failure roll) is
  modelled by oracle parameters: `randint lo hi r` and `uniform lo hi r`
  return a value in the documented range for every seed, which is the
  library contract the code relies on.
* Fallible I/O (the atomic checkpoint write, `pickle.load`, `os.remove`)
  is modelled by boolean success oracles, since the Python code catches the
  corresponding exceptions.
* The fire-and-forget checkpoint thread spawned by `async_save_checkpoint`
  is split into the spawn (the worker only flips the status to
  "Checkpointing...") and a separate completion event
  (`async_save_checkpoint_job`), which is how the interleaved executions of
  the program are generated in the trace model `run`.
-/

namespace Monitor

/-- The three configured modules: the keys of the `MODULES` dict. -/
inductive ModName
  | heartRate
  | temperature
  | oxygen
deriving DecidableEq, Repr

/-- `MODULES[name]["interval"]` (seconds). -/
def ModName.interval : ModName → ℕ
  | .heartRate => 5
  | .temperature => 8
  | .oxygen => 10

/-- `MODULES[name]["unit"]`. -/
def ModName.unit : ModName → String
  | .heartRate => "bpm"
  | .temperature => "°C"
  | .oxygen => "%"

/-- The display name, the key of the `MODULES` dict. -/
def ModName.name : ModName → String
  | .heartRate => "Heart Rate"
  | .temperature => "Temperature"
  | .oxygen => "Oxygen"

/-- Embedding of the `module_name in state` membership test of the route
handlers: an arbitrary string resolves to a configured module or to none. -/
def toModName (s : String) : Option ModName :=
  if s = "Heart Rate" then some .heartRate
  else if s = "Temperature" then some .temperature
  else if s = "Oxygen" then some .oxygen
  else none

/-- One per-module runtime state record, the value of the `state` dict
(`app.py` lines 28-40). Readings are rationals (ints and one-decimal floats
in the source); epochs are rationals. -/
structure ModuleState where
  value : Option ℚ
  status : String
  last_cp : Option String
  history : List ℚ
  failed : Bool
  last_checkpoint_time_epoch : ℚ
  seq : ℕ
  last_value_time : Option String
deriving DecidableEq, Repr

/-- The startup default of a ModuleState (`app.py` lines 29-38, identical to
the dict rebuilt by `reset_all` lines 359-362). -/
def initModuleState : ModuleState :=
  { value := none
    status := "Active"
    last_cp := none
    history := []
    failed := false
    last_checkpoint_time_epoch := 0
    seq := 0
    last_value_time := none }

/-- One line of the structured event log (`add_log`). -/
structure LogEntry where
  time : String
  level : String
  msg : String
deriving DecidableEq, Repr

/-- The payload pickled into a checkpoint file (`save_checkpoint_file`
lines 103-109). -/
structure CheckpointRecord where
  modName : String
  value : ℚ
  unit : String
  time : String
  epoch : ℚ
deriving DecidableEq, Repr

/-- Global system state: the `state` dict, the checkpoint directory
(one optional record file per module) and the event log file. -/
structure Sys where
  state : ModName → ModuleState
  files : ModName → Option CheckpointRecord
  log : List LogEntry

/-- Point update of one module state (a `state[module_name][...] = ...`
block executed under `state_lock`). -/
def updState (m : ModName) (f : ModuleState → ModuleState) (sys : Sys) : Sys :=
  { sys with state := fun m2 => if m2 = m then f (sys.state m) else sys.state m2 }

/-- `add_log(level, msg)`: append one structured line to the event log under
`log_lock`; the timestamp string is an oracle parameter. -/
def add_log (t level msg : String) (sys : Sys) : Sys :=
  { sys with log := sys.log ++ [⟨t, level, msg⟩] }

/-- `save_checkpoint_file(module_name, value)` (lines 99-118). `t` and
`epoch` are the captured `now_local_iso()` / `time.time()`; `ok` says whether
the atomic write `_atomic_write_pickle` succeeds (its `try`/`except`).
On success: write the payload file, then under the state lock set `last_cp`
and `last_checkpoint_time_epoch` from the payload, then log SUCCESS.
On failure: log ERROR, then set the status to "Checkpoint Error". -/
def save_checkpoint_file (m : ModName) (value : ℚ) (t : String) (epoch : ℚ)
    (ok : Bool) (sys : Sys) : Sys :=
  let payload : CheckpointRecord := ⟨m.name, value, m.unit, t, epoch⟩
  if ok then
    let sys1 : Sys :=
      { sys with files := fun m2 => if m2 = m then some payload else sys.files m2 }
    let sys2 := updState m (fun st =>
      { st with last_cp := some payload.time
                last_checkpoint_time_epoch := payload.epoch }) sys1
    add_log t "SUCCESS" (m.name ++ ": checkpoint saved @ " ++ t) sys2
  else
    updState m (fun st => { st with status := "Checkpoint Error" })
      (add_log t "ERROR" (m.name ++ ": checkpoint save failed") sys)

/-- The body `_job` of the daemon thread spawned by `async_save_checkpoint`
(lines 120-126): run `save_checkpoint_file`, then under the state lock set
the status back to "Active" if the module is not failed. This is the
completion of one fire-and-forget save task. -/
def async_save_checkpoint_job (m : ModName) (value : ℚ) (t : String) (epoch : ℚ)
    (ok : Bool) (sys : Sys) : Sys :=
  let sys1 := save_checkpoint_file m value t epoch ok sys
  if (sys1.state m).failed then sys1
  else updState m (fun st => { st with status := "Active" }) sys1

/-- `load_checkpoint_file(module_name)` (lines 128-137): if the file does not
exist, return `none`; if it exists, `parseOk` says whether `pickle.load`
succeeds — on a parse failure log ERROR and return `none` as well. -/
def load_checkpoint_file (m : ModName) (parseOk : Bool) (t : String) (sys : Sys) :
    Option CheckpointRecord × Sys :=
  match sys.files m with
  | some r =>
      if parseOk then (some r, sys)
      else (none, add_log t "ERROR" (m.name ++ ": checkpoint load failed") sys)
  | none => (none, sys)

/-- `recover_module(module_name)` (lines 139-152): load the checkpoint; with
a record set `value`, status "Recovered", clear `failed`, set `last_cp` to
the record time (deliberately not touching `last_checkpoint_time_epoch`),
log SUCCESS; with no record set status "No Checkpoint", clear `failed`,
log WARN. -/
def recover_module (m : ModName) (parseOk : Bool) (t : String) (sys : Sys) : Sys :=
  let res := load_checkpoint_file m parseOk t sys
  match res.1 with
  | some data =>
      add_log t "SUCCESS" (m.name ++ ": recovered from checkpoint @ " ++ data.time)
        (updState m (fun st =>
          { st with value := some data.value
                    status := "Recovered"
                    failed := false
                    last_cp := some data.time }) res.2)
  | none =>
      add_log t "WARN" (m.name ++ ": no checkpoint available for recovery")
        (updState m (fun st =>
          { st with status := "No Checkpoint", failed := false }) res.2)

/-- Model of `random.randint(lo, hi)`: for every seed `r` the result is
`lo + (r mod (hi - lo + 1))`, a uniform point of `[lo, hi]`. -/
def randint (lo hi : ℤ) (r : ℕ) : ℤ :=
  lo + (r % (hi - lo + 1).toNat : ℕ)

/-- Clamp a rational seed into `[0, 1]`. -/
def clamp01 (r : ℚ) : ℚ := max 0 (min 1 r)

/-- Model of `random.uniform(lo, hi)`: for every seed the result lies in
`[lo, hi]`. -/
def uniform (lo hi : ℚ) (r : ℚ) : ℚ := lo + (hi - lo) * clamp01 r

/-- Model of Python `round(x, 1)`: round to one decimal place. -/
def round1 (q : ℚ) : ℚ := ((round (q * 10) : ℤ) : ℚ) / 10

/-- The random draws consumed by one worker iteration: the integer seed for
`random.randint`, the rational seed for `random.uniform`, and the outcome of
the `random.random() < 0.01` failure roll. -/
structure RandOracle where
  rInt : ℕ
  rQ : ℚ
  failRoll : Bool
deriving Repr

/-- `generate_value_for(name)` (lines 157-164). -/
def generate_value_for (m : ModName) (o : RandOracle) : ℚ :=
  match m with
  | .heartRate => ((randint 60 100 o.rInt : ℤ) : ℚ)
  | .temperature => round1 (uniform 36 (75 / 2) o.rQ)
  | .oxygen => ((randint 92 100 o.rInt : ℤ) : ℚ)

/-- Environment inputs of one worker iteration: the random draws, the
`time.time()` reading used for the checkpoint-due test, and the
`now_local_iso()` string. -/
structure TickOracle where
  rand : RandOracle
  nowEpoch : ℚ
  timeStr : String
deriving Repr

/-- The initialization `module_loop` performs before entering its loop
(lines 168-171): seed `last_checkpoint_time_epoch` with
`time.time() - interval // 2`. -/
def module_loop_init (m : ModName) (now : ℚ) (sys : Sys) : Sys :=
  updState m (fun st =>
    { st with last_checkpoint_time_epoch := now - (m.interval / 2 : ℕ) }) sys

/-- One iteration of the `while True` body of `module_loop` (lines 173-209).
If `failed`: set status "Recovering...", run `recover_module`, sleep.
Otherwise: generate a reading; under lock bump `seq`, set `value` and
`last_value_time`, append to `history` trimming to the last 300; if the time
since `last_checkpoint_time_epoch` reached the interval, set status
"Checkpointing..." and spawn the async save (whose completion is the
separate event `async_save_checkpoint_job`); with probability 1% (the
`failRoll` oracle) set `failed`, status "Failed" and log ERROR; sleep. -/
def module_loop_iter (m : ModName) (o : TickOracle) (parseOk : Bool) (sys : Sys) : Sys :=
  if (sys.state m).failed then
    recover_module m parseOk o.timeStr
      (updState m (fun st => { st with status := "Recovering..." }) sys)
  else
    let new_val := generate_value_for m o.rand
    let sys1 := updState m (fun st =>
      let h := st.history ++ [new_val]
      { st with seq := st.seq + 1
                value := some new_val
                last_value_time := some o.timeStr
                history := if h.length > 300 then h.drop (h.length - 300) else h }) sys
    let sys2 :=
      if o.nowEpoch - (sys1.state m).last_checkpoint_time_epoch ≥ (m.interval : ℚ) then
        updState m (fun st => { st with status := "Checkpointing..." }) sys1
      else sys1
    if o.rand.failRoll then
      add_log o.timeStr "ERROR" (m.name ++ ": spontaneous failure (simulated)")
        (updState m (fun st => { st with failed := true, status := "Failed" }) sys2)
    else sys2

/-- The `/fail/<module_name>` handler `fail_module` (lines 324-331): if the
name is configured, set `failed`, status "Failed" and log ERROR, else do
nothing (the redirect carries no state). -/
def fail_module (nameStr : String) (t : String) (sys : Sys) : Sys :=
  match toModName nameStr with
  | some m =>
      add_log t "ERROR" (m.name ++ ": manual failure triggered")
        (updState m (fun st => { st with failed := true, status := "Failed" }) sys)
  | none => sys

/-- The `/recover/<module_name>` handler `recover_route` (lines 333-340): if
the name is configured, clear `failed`, set status "Recovering..." and run
`recover_module`, else do nothing. -/
def recover_route (nameStr : String) (parseOk : Bool) (t : String) (sys : Sys) : Sys :=
  match toModName nameStr with
  | some m =>
      recover_module m parseOk t
        (updState m (fun st => { st with failed := false, status := "Recovering..." }) sys)
  | none => sys

/-- The atomic steps performed by the `/reset` handler `reset_all`
(lines 342-364), in program order. `lockedReinit` is the whole
`with state_lock:` block that reinitializes every module state: it is a
single atomic action precisely because it runs under the module-state
lock. -/
inductive ResetAct
  | removeCkpt (m : ModName)
  | removeLog
  | lockedReinit
  | logInfo
deriving DecidableEq, Repr

/-- The straight-line body of `reset_all`: remove the three checkpoint files,
remove the log file, reinitialize all states under the lock, log INFO. -/
def reset_program : List ResetAct :=
  [.removeCkpt .heartRate, .removeCkpt .temperature, .removeCkpt .oxygen,
   .removeLog, .lockedReinit, .logInfo]

/-- Interpreter for one `reset_all` step. `removeOk` / `logOk` model whether
`os.remove` succeeds (the code swallows its exceptions). -/
def execResetAct (removeOk : ModName → Bool) (logOk : Bool) (t : String)
    (sys : Sys) : ResetAct → Sys
  | .removeCkpt m =>
      if (sys.files m).isSome && removeOk m then
        { sys with files := fun m2 => if m2 = m then none else sys.files m2 }
      else sys
  | .removeLog => if logOk then { sys with log := [] } else sys
  | .lockedReinit => { sys with state := fun _ => initModuleState }
  | .logInfo => add_log t "INFO" "System reset: checkpoints and logs cleared" sys

/-- `reset_all` (lines 342-364) as the execution of its step list. -/
def reset_all (removeOk : ModName → Bool) (logOk : Bool) (t : String) (sys : Sys) : Sys :=
  reset_program.foldl (execResetAct removeOk logOk t) sys

/-- The events that mutate the shared state: one worker-loop iteration, the
completion of a detached checkpoint-save task, the two manual routes, the
reset route, and the pre-loop epoch seeding of a worker. Interleaving these
events generates every execution of the concurrent program. -/
inductive Op
  | tick (m : ModName) (o : TickOracle) (parseOk : Bool)
  | saveComplete (m : ModName) (value : ℚ) (t : String) (epoch : ℚ) (ok : Bool)
  | failRoute (nameStr : String) (t : String)
  | recoverRouteEv (nameStr : String) (parseOk : Bool) (t : String)
  | resetEv (removeOk : ModName → Bool) (logOk : Bool) (t : String)
  | loopStart (m : ModName) (now : ℚ)

/-- Apply one event. -/
def applyOp (sys : Sys) : Op → Sys
  | .tick m o p => module_loop_iter m o p sys
  | .saveComplete m v t e ok => async_save_checkpoint_job m v t e ok sys
  | .failRoute s t => fail_module s t sys
  | .recoverRouteEv s p t => recover_route s p t sys
  | .resetEv r l t => reset_all r l t sys
  | .loopStart m now => module_loop_init m now sys

/-- Process start: every module at its startup default, no checkpoint files,
empty log. -/
def initSys : Sys :=
  { state := fun _ => initModuleState, files := fun _ => none, log := [] }

/-- The state reached after a sequence of events from process start. -/
def run (ops : List Op) : Sys := ops.foldl applyOp initSys

/-- A JSON value, the possible results of `json.loads` on one log line. -/
inductive JValue
  | null
  | boolean (b : Bool)
  | num (q : ℚ)
  | str (s : String)
  | arr (xs : List JValue)
  | obj (kvs : List (String × JValue))

/-- Python string equality of a JSON value against a string key (`==` inside
a list membership test): only an equal string compares equal. -/
def isStrEq (key : String) : JValue → Bool
  | .str s => s = key
  | _ => false

/-- Python `key in data` for a parsed JSON value `data`: key lookup for a
dict, substring test for a string, element equality for a list — and a
`TypeError` for `null`, booleans and numbers, which are not iterable. -/
def pyIn (key : String) : JValue → Except String Bool
  | .obj kvs => .ok (kvs.any (fun kv => kv.1 = key))
  | .str s => .ok (decide ((s.splitOn key).length ≥ 2))
  | .arr xs => .ok (xs.any (isStrEq key))
  | _ => .error "TypeError: argument of type is not iterable"

/-- The guard `"time" in data and "level" in data and "msg" in data`
(line 73), with Python short-circuit evaluation. -/
def recordOk (v : JValue) : Except String Bool := do
  let a ← pyIn "time" v
  if a then
    let b ← pyIn "level" v
    if b then pyIn "msg" v else pure false
  else pure false

/-- The `for line in f` loop of `read_recent_logs` (lines 67-77). Each line
is represented by its `json.loads` outcome: `none` for a blank line or a
`json.JSONDecodeError` (both skipped by the code), `some v` for a line that
parses to `v`. An uncaught exception from the guard aborts the whole read. -/
def collectEntries : List (Option JValue) → Except String (List JValue)
  | [] => .ok []
  | none :: rest => collectEntries rest
  | some v :: rest => do
      let keep ← recordOk v
      let tail ← collectEntries rest
      if keep then pure (v :: tail) else pure tail

/-- `read_recent_logs(limit)` (lines 60-78): collect the well-formed entries
in file order, then return `list(reversed(entries))[:limit]`. -/
def read_recent_logs (lines : List (Option JValue)) (limit : ℕ) :
    Except String (List JValue) := do
  let entries ← collectEntries lines
  pure (entries.reverse.take limit)

/-! ### Basic frame lemmas -/

theorem updState_state_self (m : ModName) (f : ModuleState → ModuleState) (sys : Sys) :
    (updState m f sys).state m = f (sys.state m) := by
  simp [updState]

theorem updState_state_other (m m2 : ModName) (f : ModuleState → ModuleState)
    (sys : Sys) (h : m2 ≠ m) : (updState m f sys).state m2 = sys.state m2 := by
  simp [updState, h]

theorem updState_files (m : ModName) (f : ModuleState → ModuleState) (sys : Sys) :
    (updState m f sys).files = sys.files := rfl

theorem add_log_state (t level msg : String) (sys : Sys) :
    (add_log t level msg sys).state = sys.state := rfl

theorem add_log_files (t level msg : String) (sys : Sys) :
    (add_log t level msg sys).files = sys.files := rfl

theorem add_log_log (t level msg : String) (sys : Sys) :
    (add_log t level msg sys).log = sys.log ++ [⟨t, level, msg⟩] := rfl

/-! ### Claim C1 -/

/-- Claim C1 is false on the code: starting from the startup state (so the
"Heart Rate" module is not failed), a checkpoint-save task that fails leaves
the module with status "Active" once the task completes — not the
checkpoint-error state the claim requires. -/
theorem claim_C1_counterexample :
    (initSys.state .heartRate).failed = false ∧
    ((async_save_checkpoint_job .heartRate 70 "T1" 1 false initSys).state .heartRate).status
      = "Active" ∧
    ((async_save_checkpoint_job .heartRate 70 "T1" 1 false initSys).state .heartRate).status
      ≠ "Checkpoint Error" := by
  refine ⟨rfl, rfl, ?_⟩
  decide

/-- Claim C1 (amended): on a failing save, `save_checkpoint_file` appends an
ERROR log entry and leaves the module with status "Checkpoint Error"; but
the enclosing async task body then sets the status back to "Active" whenever
the module is not failed, so after the save task completes the status is
"Active" for every not-failed module, and "Checkpoint Error" persists
exactly when the module is failed. -/
theorem claim_C1 (sys : Sys) (m : ModName) (v : ℚ) (t : String) (e : ℚ) :
    ((save_checkpoint_file m v t e false sys).state m).status = "Checkpoint Error" ∧
    (save_checkpoint_file m v t e false sys).log
      = sys.log ++ [⟨t, "ERROR", m.name ++ ": checkpoint save failed"⟩] ∧
    ((sys.state m).failed = false →
      ((async_save_checkpoint_job m v t e false sys).state m).status = "Active") ∧
    ((sys.state m).failed = true →
      ((async_save_checkpoint_job m v t e false sys).state m).status
        = "Checkpoint Error") := by
  refine ⟨?_, ?_, ?_, ?_⟩
  · simp [save_checkpoint_file, updState, add_log]
  · simp [save_checkpoint_file, updState, add_log]
  · intro h
    simp [async_save_checkpoint_job, save_checkpoint_file, updState, add_log, h]
  · intro h
    simp [async_save_checkpoint_job, save_checkpoint_file, updState, add_log, h]

theorem claim_C1_witness :
    ((save_checkpoint_file .heartRate 70 "T1" 1 false initSys).state .heartRate).status
      = "Checkpoint Error" ∧
    ((async_save_checkpoint_job .heartRate 70 "T1" 1 false initSys).state .heartRate).status
      = "Active" :=
  ⟨(claim_C1 initSys .heartRate 70 "T1" 1).1,
   (claim_C1 initSys .heartRate 70 "T1" 1).2.2.1 rfl⟩

/-! ### Claim C2 -/

/-- Claim C2: `recover_module` with an existing (parseable) checkpoint record
sets `value` to the stored value, sets `last_cp` to the stored save time,
leaves `last_checkpoint_time_epoch` unchanged, clears `failed` and sets
status "Recovered"; with no record it clears `failed`, sets status
"No Checkpoint" and leaves `value` unchanged. -/
theorem claim_C2 (sys : Sys) (m : ModName) (t : String) :
    (∀ r : CheckpointRecord, sys.files m = some r →
      ((recover_module m true t sys).state m).value = some r.value ∧
      ((recover_module m true t sys).state m).last_cp = some r.time ∧
      ((recover_module m true t sys).state m).last_checkpoint_time_epoch
        = (sys.state m).last_checkpoint_time_epoch ∧
      ((recover_module m true t sys).state m).failed = false ∧
      ((recover_module m true t sys).state m).status = "Recovered") ∧
    (sys.files m = none →
      ((recover_module m true t sys).state m).failed = false ∧
      ((recover_module m true t sys).state m).status = "No Checkpoint" ∧
      ((recover_module m true t sys).state m).value = (sys.state m).value) := by
  constructor
  · intro r hr
    simp [recover_module, load_checkpoint_file, hr, add_log, updState]
  · intro h
    simp [recover_module, load_checkpoint_file, h, add_log, updState]

/-- A start state holding one checkpoint record for "Heart Rate". -/
def sysWithCkpt : Sys :=
  { initSys with
    files := fun m2 =>
      if m2 = ModName.heartRate then some ⟨"Heart Rate", 72, "bpm", "T0", 100⟩
      else none }

theorem claim_C2_witness :
    ((recover_module .heartRate true "T1" sysWithCkpt).state .heartRate).value = some 72 ∧
    ((recover_module .heartRate true "T1" initSys).state .heartRate).status
      = "No Checkpoint" :=
  ⟨((claim_C2 sysWithCkpt .heartRate "T1").1 ⟨"Heart Rate", 72, "bpm", "T0", 100⟩ rfl).1,
   ((claim_C2 initSys .heartRate "T1").2 rfl).2.1⟩

/-! ### Claim C5 -/

/-- Claim C5 fails on the code (code bug): on a log file whose single line
is `3` — valid JSON, so `json.loads` succeeds with a number — the guard
`"time" in data` raises a `TypeError`, which the `except json.JSONDecodeError`
handler does not catch, so `read_recent_logs` raises instead of skipping the
line, contradicting its own docstring ("Read recent logs safely — skip
malformed or incomplete lines"). -/
theorem claim_C5 :
    read_recent_logs [some (JValue.num 3)] 80
      = Except.error "TypeError: argument of type is not iterable" := rfl

/-! ### Claim C10 -/

/-- Claim C10: `fail_module` and `recover_route` invoked with a module name
that is not configured leave the whole system state (every module state, the
checkpoint files and the log) unchanged and raise nothing. -/
theorem claim_C10 (nameStr t : String) (parseOk : Bool) (sys : Sys)
    (h : toModName nameStr = none) :
    fail_module nameStr t sys = sys ∧ recover_route nameStr parseOk t sys = sys := by
  constructor
  · simp [fail_module, h]
  · simp [recover_route, h]

theorem claim_C10_witness :
    fail_module "Pressure" "T1" initSys = initSys ∧
    recover_route "Pressure" true "T1" initSys = initSys :=
  claim_C10 "Pressure" "T1" true initSys (by decide)

/-! ### Seq/history frame lemmas -/

theorem updState_seq_hist (m : ModName) (f : ModuleState → ModuleState) (sys : Sys)
    (m2 : ModName) (hseq : ∀ st, (f st).seq = st.seq)
    (hh : ∀ st, (f st).history = st.history) :
    ((updState m f sys).state m2).seq = (sys.state m2).seq ∧
    ((updState m f sys).state m2).history = (sys.state m2).history := by
  by_cases hm : m2 = m
  · subst hm; simp [updState, hseq, hh]
  · simp [updState, hm]

theorem recover_state_frame (m : ModName) (p : Bool) (t : String) (sys : Sys)
    (m2 : ModName) :
    ((recover_module m p t sys).state m2).seq = (sys.state m2).seq ∧
    ((recover_module m p t sys).state m2).history = (sys.state m2).history := by
  rcases hf : sys.files m with _ | r
  · by_cases hm : m2 = m <;>
      simp [recover_module, load_checkpoint_file, hf, add_log, updState, hm]
  · cases p <;> by_cases hm : m2 = m <;>
      simp [recover_module, load_checkpoint_file, hf, add_log, updState, hm]

theorem save_state_frame (m : ModName) (v : ℚ) (t : String) (e : ℚ) (ok : Bool)
    (sys : Sys) (m2 : ModName) :
    ((save_checkpoint_file m v t e ok sys).state m2).seq = (sys.state m2).seq ∧
    ((save_checkpoint_file m v t e ok sys).state m2).history
      = (sys.state m2).history := by
  cases ok <;> by_cases hm : m2 = m <;>
    simp [save_checkpoint_file, add_log, updState, hm]

theorem job_state_frame (m : ModName) (v : ℚ) (t : String) (e : ℚ) (ok : Bool)
    (sys : Sys) (m2 : ModName) :
    ((async_save_checkpoint_job m v t e ok sys).state m2).seq = (sys.state m2).seq ∧
    ((async_save_checkpoint_job m v t e ok sys).state m2).history
      = (sys.state m2).history := by
  have h1 := save_state_frame m v t e ok sys m2
  by_cases hb : ((save_checkpoint_file m v t e ok sys).state m).failed
  · simpa [async_save_checkpoint_job, hb] using h1
  · by_cases hm : m2 = m <;>
      simp_all [async_save_checkpoint_job, hb, updState, hm]

/-! ### Claim C4 -/

/-- Claim C4 is false on the code: `save_checkpoint_file` stores the
completing save task captured timestamp unconditionally (last-writer-wins),
so when two save tasks for the same module complete in the opposite order
from the order in which they captured their timestamps, the second
completion regresses `last_checkpoint_time_epoch` from 10 to 5 — not a value
greater than or equal to its previous value. -/
theorem claim_C4_counterexample :
    ((async_save_checkpoint_job .heartRate 70 "TA" 10 true initSys).state
        .heartRate).last_checkpoint_time_epoch = 10 ∧
    ((async_save_checkpoint_job .heartRate 71 "TB" 5 true
        (async_save_checkpoint_job .heartRate 70 "TA" 10 true initSys)).state
        .heartRate).last_checkpoint_time_epoch = 5 ∧
    (5 : ℚ) < 10 := by
  refine ⟨rfl, rfl, ?_⟩
  norm_num

/-- Claim C4 (amended): a completed save task that succeeded sets the
module field `last_checkpoint_time_epoch` to the captured timestamp of that save
and a failed one leaves it unchanged (last-writer-wins); consequently the
epoch never moves backward whenever the captured timestamp of the completing save
is at least the currently stored epoch — in particular whenever tasks
complete in the order in which they captured their timestamps — but
out-of-order completions can regress it. -/
theorem claim_C4 (sys : Sys) (m : ModName) (v : ℚ) (t : String) (e : ℚ) (ok : Bool) :
    ((async_save_checkpoint_job m v t e true sys).state m).last_checkpoint_time_epoch
      = e ∧
    ((async_save_checkpoint_job m v t e false sys).state m).last_checkpoint_time_epoch
      = (sys.state m).last_checkpoint_time_epoch ∧
    ((sys.state m).last_checkpoint_time_epoch ≤ e →
      (sys.state m).last_checkpoint_time_epoch ≤
        ((async_save_checkpoint_job m v t e ok sys).state m).last_checkpoint_time_epoch) := by
  have htrue :
      ((async_save_checkpoint_job m v t e true sys).state m).last_checkpoint_time_epoch
        = e := by
    by_cases hb : (sys.state m).failed <;>
      simp [async_save_checkpoint_job, save_checkpoint_file, add_log, updState, hb]
  have hfalse :
      ((async_save_checkpoint_job m v t e false sys).state m).last_checkpoint_time_epoch
        = (sys.state m).last_checkpoint_time_epoch := by
    by_cases hb : (sys.state m).failed <;>
      simp [async_save_checkpoint_job, save_checkpoint_file, add_log, updState, hb]
  refine ⟨htrue, hfalse, fun h => ?_⟩
  cases ok
  · rw [hfalse]
  · rw [htrue]; exact h

theorem claim_C4_witness :
    ((async_save_checkpoint_job .heartRate 70 "TA" 10 true initSys).state
        .heartRate).last_checkpoint_time_epoch = 10 ∧
    (initSys.state .heartRate).last_checkpoint_time_epoch ≤
      ((async_save_checkpoint_job .heartRate 70 "TA" 10 true initSys).state
          .heartRate).last_checkpoint_time_epoch :=
  ⟨(claim_C4 initSys .heartRate 70 "TA" 10 true).1,
   (claim_C4 initSys .heartRate 70 "TA" 10 true).2.2 (by decide)⟩

/-! ### Claim C7 -/

/-- Claim C7: `load_checkpoint_file` returns absent both when the checkpoint
file does not exist (for either parse oracle, with no log entry) and when
the file exists but cannot be parsed (appending an ERROR log entry), and
`recover_module` behaves identically in the two cases: status
"No Checkpoint", `failed` cleared, `value` unchanged. -/
theorem claim_C7 (sys : Sys) (m : ModName) (t : String) :
    (sys.files m = none →
      (∀ p : Bool, load_checkpoint_file m p t sys = (none, sys)) ∧
      (∀ p : Bool,
        ((recover_module m p t sys).state m).status = "No Checkpoint" ∧
        ((recover_module m p t sys).state m).failed = false ∧
        ((recover_module m p t sys).state m).value = (sys.state m).value)) ∧
    (∀ r : CheckpointRecord, sys.files m = some r →
      (load_checkpoint_file m false t sys).1 = none ∧
      (load_checkpoint_file m false t sys).2.log
        = sys.log ++ [⟨t, "ERROR", m.name ++ ": checkpoint load failed"⟩] ∧
      ((recover_module m false t sys).state m).status = "No Checkpoint" ∧
      ((recover_module m false t sys).state m).failed = false ∧
      ((recover_module m false t sys).state m).value = (sys.state m).value) := by
  constructor
  · intro h
    constructor
    · intro p; simp [load_checkpoint_file, h]
    · intro p
      simp [recover_module, load_checkpoint_file, h, add_log, updState]
  · intro r hr
    refine ⟨?_, ?_, ?_⟩
    · simp [load_checkpoint_file, hr]
    · simp [load_checkpoint_file, hr, add_log]
    · simp [recover_module, load_checkpoint_file, hr, add_log, updState]

theorem claim_C7_witness :
    ((recover_module .heartRate true "T1" initSys).state .heartRate).status
      = "No Checkpoint" ∧
    ((recover_module .heartRate false "T1" sysWithCkpt).state .heartRate).status
      = "No Checkpoint" :=
  ⟨(((claim_C7 initSys .heartRate "T1").1 rfl).2 true).1,
   ((claim_C7 sysWithCkpt .heartRate "T1").2 ⟨"Heart Rate", 72, "bpm", "T0", 100⟩ rfl).2.2.1⟩

/-! ### Claim C8 -/

/-- Claim C8: a worker iteration that observes `failed = true` does nothing
except set the status to "Recovering..." and invoke the Recovery Controller
(the trailing sleep has no state effect); in particular it advances neither
`seq` nor `history` of the module. -/
theorem claim_C8 (sys : Sys) (m : ModName) (o : TickOracle) (p : Bool)
    (h : (sys.state m).failed = true) :
    module_loop_iter m o p sys
      = recover_module m p o.timeStr
          (updState m (fun st => { st with status := "Recovering..." }) sys) ∧
    ((module_loop_iter m o p sys).state m).seq = (sys.state m).seq ∧
    ((module_loop_iter m o p sys).state m).history = (sys.state m).history := by
  have heq : module_loop_iter m o p sys
      = recover_module m p o.timeStr
          (updState m (fun st => { st with status := "Recovering..." }) sys) := by
    simp [module_loop_iter, h]
  refine ⟨heq, ?_, ?_⟩
  · rw [heq, (recover_state_frame m p o.timeStr _ m).1, updState_state_self]
  · rw [heq, (recover_state_frame m p o.timeStr _ m).2, updState_state_self]

/-- A start state in which "Heart Rate" is failed. -/
def sysFailed : Sys :=
  { initSys with
    state := fun m2 =>
      if m2 = ModName.heartRate then { initModuleState with failed := true, status := "Failed" }
      else initModuleState }

theorem claim_C8_witness :
    module_loop_iter .heartRate ⟨⟨0, 0, false⟩, 0, "T1"⟩ true sysFailed
      = recover_module .heartRate true "T1"
          (updState .heartRate (fun st => { st with status := "Recovering..." }) sysFailed) ∧
    ((module_loop_iter .heartRate ⟨⟨0, 0, false⟩, 0, "T1"⟩ true sysFailed).state
        .heartRate).seq = (sysFailed.state .heartRate).seq :=
  ⟨(claim_C8 sysFailed .heartRate ⟨⟨0, 0, false⟩, 0, "T1"⟩ true rfl).1,
   (claim_C8 sysFailed .heartRate ⟨⟨0, 0, false⟩, 0, "T1"⟩ true rfl).2.1⟩

/-! ### Claim C6 -/

theorem exec_removeCkpt_files (removeOk : ModName → Bool) (logOk : Bool) (t : String)
    (sys : Sys) (m m2 : ModName) (h : removeOk m = true) :
    (execResetAct removeOk logOk t sys (.removeCkpt m)).files m2
      = if m2 = m then none else sys.files m2 := by
  by_cases hm : m2 = m
  · subst hm; cases hf : sys.files m2 <;> simp [execResetAct, h, hf]
  · cases hf : sys.files m <;> simp [execResetAct, h, hf, hm]

theorem exec_removeLog_files (removeOk : ModName → Bool) (logOk : Bool) (t : String)
    (sys : Sys) :
    (execResetAct removeOk logOk t sys .removeLog).files = sys.files := by
  by_cases hc : logOk <;> simp [execResetAct, hc]

/-- `reset_all` reinitializes every module state to the startup default:
the `lockedReinit` step overwrites all of them and the only later step is
the INFO log append. -/
theorem reset_state_def (removeOk : ModName → Bool) (logOk : Bool) (t : String)
    (sys : Sys) (m2 : ModName) :
    (reset_all removeOk logOk t sys).state m2 = initModuleState := rfl

theorem reset_files_none (removeOk : ModName → Bool) (t : String) (sys : Sys)
    (logOk : Bool) (h : ∀ m, removeOk m = true) (m2 : ModName) :
    (reset_all removeOk logOk t sys).files m2 = none := by
  have h3 : (execResetAct removeOk logOk t
      (execResetAct removeOk logOk t
        (execResetAct removeOk logOk t sys (.removeCkpt .heartRate))
        (.removeCkpt .temperature)) (.removeCkpt .oxygen)).files m2 = none := by
    rw [exec_removeCkpt_files _ _ _ _ _ _ (h _),
        exec_removeCkpt_files _ _ _ _ _ _ (h _),
        exec_removeCkpt_files _ _ _ _ _ _ (h _)]
    cases m2 <;> simp
  calc (reset_all removeOk logOk t sys).files m2
      = (execResetAct removeOk logOk t
          (execResetAct removeOk logOk t
            (execResetAct removeOk logOk t
              (execResetAct removeOk logOk t sys (.removeCkpt .heartRate))
              (.removeCkpt .temperature)) (.removeCkpt .oxygen)) .removeLog).files m2 := rfl
    _ = none := by rw [exec_removeLog_files]; exact h3

/-- Claim C6: when every `os.remove` succeeds, after `reset_all` every
module state equals the startup default, no checkpoint files exist, the
event log has been truncated and then holds exactly the INFO entry logged
afterward, and the reinitialization of the module states is the single
atomic `lockedReinit` step of the reset program — the block that the source
executes under the module-state lock. -/
theorem claim_C6 (sys : Sys) (removeOk : ModName → Bool) (t : String)
    (h : ∀ m, removeOk m = true) :
    (∀ m, (reset_all removeOk true t sys).state m = initModuleState) ∧
    (∀ m, (reset_all removeOk true t sys).files m = none) ∧
    (reset_all removeOk true t sys).log
      = [⟨t, "INFO", "System reset: checkpoints and logs cleared"⟩] ∧
    ResetAct.lockedReinit ∈ reset_program := by
  refine ⟨fun m => reset_state_def removeOk true t sys m,
          fun m => reset_files_none removeOk t sys true h m, rfl, by decide⟩

theorem claim_C6_witness :
    (reset_all (fun _ => true) true "T9" sysWithCkpt).state .heartRate = initModuleState ∧
    (reset_all (fun _ => true) true "T9" sysWithCkpt).files .heartRate = none ∧
    (reset_all (fun _ => true) true "T9" sysWithCkpt).log
      = [⟨"T9", "INFO", "System reset: checkpoints and logs cleared"⟩] :=
  ⟨(claim_C6 sysWithCkpt (fun _ => true) "T9" (fun _ => rfl)).1 .heartRate,
   (claim_C6 sysWithCkpt (fun _ => true) "T9" (fun _ => rfl)).2.1 .heartRate,
   (claim_C6 sysWithCkpt (fun _ => true) "T9" (fun _ => rfl)).2.2.1⟩

/-! ### Claim C9 -/

theorem randint_bounds (lo hi : ℤ) (r : ℕ) (h : lo ≤ hi) :
    lo ≤ randint lo hi r ∧ randint lo hi r ≤ hi := by
  unfold randint
  have hpos : 0 < (hi - lo + 1).toNat := by omega
  have hlt : r % (hi - lo + 1).toNat < (hi - lo + 1).toNat := Nat.mod_lt r hpos
  omega

theorem clamp01_bounds (r : ℚ) : 0 ≤ clamp01 r ∧ clamp01 r ≤ 1 := by
  unfold clamp01
  constructor
  · exact le_max_left 0 _
  · exact max_le (by norm_num) (min_le_left 1 r)

theorem uniform_bounds (lo hi : ℚ) (r : ℚ) (h : lo ≤ hi) :
    lo ≤ uniform lo hi r ∧ uniform lo hi r ≤ hi := by
  unfold uniform
  obtain ⟨h0, h1⟩ := clamp01_bounds r
  constructor
  · nlinarith
  · nlinarith

theorem round_bounds_int (a b : ℤ) (q : ℚ) (h1 : (a : ℚ) ≤ q) (h2 : q ≤ (b : ℚ)) :
    a ≤ round q ∧ round q ≤ b := by
  rw [round_eq]
  constructor
  · apply Int.le_floor.mpr
    linarith
  · have hf : ((⌊q + 1 / 2⌋ : ℤ) : ℚ) ≤ q + 1 / 2 := Int.floor_le _
    have hlt : ⌊q + 1 / 2⌋ < b + 1 := by
      have : ((⌊q + 1 / 2⌋ : ℤ) : ℚ) < ((b + 1 : ℤ) : ℚ) := by push_cast; linarith
      exact_mod_cast this
    omega

theorem generate_hr_bounds (o : RandOracle) :
    60 ≤ generate_value_for .heartRate o ∧ generate_value_for .heartRate o ≤ 100 := by
  have h := randint_bounds 60 100 o.rInt (by norm_num)
  simp only [generate_value_for]
  constructor
  · exact_mod_cast h.1
  · exact_mod_cast h.2

theorem generate_oxy_bounds (o : RandOracle) :
    92 ≤ generate_value_for .oxygen o ∧ generate_value_for .oxygen o ≤ 100 := by
  have h := randint_bounds 92 100 o.rInt (by norm_num)
  simp only [generate_value_for]
  constructor
  · exact_mod_cast h.1
  · exact_mod_cast h.2

theorem generate_temp_bounds (o : RandOracle) :
    36 ≤ generate_value_for .temperature o ∧ generate_value_for .temperature o ≤ 75 / 2 := by
  have hu := uniform_bounds 36 (75 / 2) o.rQ (by norm_num)
  have hr := round_bounds_int 360 375 (uniform 36 (75 / 2) o.rQ * 10)
    (by push_cast; linarith [hu.1]) (by push_cast; linarith [hu.2])
  have h1 : (360 : ℚ) ≤ ((round (uniform 36 (75 / 2) o.rQ * 10) : ℤ) : ℚ) := by
    exact_mod_cast hr.1
  have h2 : ((round (uniform 36 (75 / 2) o.rQ * 10) : ℤ) : ℚ) ≤ (375 : ℚ) := by
    exact_mod_cast hr.2
  simp only [generate_value_for, round1]
  constructor
  · linarith
  · linarith

/-- A not-failed worker iteration sets `value` to the freshly generated
reading and bumps `seq` by one; the history grows to `min (len + 1) 300`. -/
theorem tick_sample (m : ModName) (o : TickOracle) (p : Bool) (sys : Sys)
    (h : (sys.state m).failed = false) :
    ((module_loop_iter m o p sys).state m).value
      = some (generate_value_for m o.rand) ∧
    ((module_loop_iter m o p sys).state m).seq = (sys.state m).seq + 1 ∧
    ((module_loop_iter m o p sys).state m).history.length
      = min ((sys.state m).history.length + 1) 300 := by
  unfold module_loop_iter
  simp only [h, Bool.false_eq_true, if_false]
  split_ifs <;> simp [updState, add_log] <;> split_ifs <;>
    simp [List.length_drop] <;> omega

/-- Claim C9: from the startup state, one sampling tick of the "Heart Rate"
module makes `value` an integer in [60, 100] and `seq = 1`; and in general
every module-specific generator only produces values in its documented
bounded range ([60,100] bpm, [36,37.5] °C after one-decimal rounding,
[92,100] %), for every random seed. -/
theorem claim_C9 (o : TickOracle) (o2 : RandOracle) :
    (∃ n : ℤ, ((module_loop_iter .heartRate o true initSys).state .heartRate).value
        = some (n : ℚ) ∧ 60 ≤ n ∧ n ≤ 100) ∧
    ((module_loop_iter .heartRate o true initSys).state .heartRate).seq = 1 ∧
    (60 ≤ generate_value_for .heartRate o2 ∧ generate_value_for .heartRate o2 ≤ 100) ∧
    (36 ≤ generate_value_for .temperature o2
      ∧ generate_value_for .temperature o2 ≤ 75 / 2) ∧
    (92 ≤ generate_value_for .oxygen o2 ∧ generate_value_for .oxygen o2 ≤ 100) := by
  have hs := tick_sample .heartRate o true initSys rfl
  refine ⟨⟨randint 60 100 o.rand.rInt, ?_, ?_, ?_⟩, ?_, generate_hr_bounds o2,
    generate_temp_bounds o2, generate_oxy_bounds o2⟩
  · rw [hs.1]; rfl
  · exact (randint_bounds 60 100 o.rand.rInt (by norm_num)).1
  · exact (randint_bounds 60 100 o.rand.rInt (by norm_num)).2
  · rw [hs.2.1]; rfl

/-! ### Claim C3 -/

/-- The C3 invariant: the history length of every module is exactly
`min seq 300` (hence at most 300). -/
def histSeqInv (sys : Sys) : Prop :=
  ∀ m, ((sys.state m).history).length = min (sys.state m).seq 300

theorem recover_state_other (m : ModName) (p : Bool) (t : String) (sys : Sys)
    (m2 : ModName) (hm : m2 ≠ m) :
    (recover_module m p t sys).state m2 = sys.state m2 := by
  rcases hf : sys.files m with _ | r
  · simp [recover_module, load_checkpoint_file, hf, add_log, updState, hm]
  · cases p <;> simp [recover_module, load_checkpoint_file, hf, add_log, updState, hm]

theorem fail_module_seq_hist (s t : String) (sys : Sys) (m2 : ModName) :
    ((fail_module s t sys).state m2).seq = (sys.state m2).seq ∧
    ((fail_module s t sys).state m2).history = (sys.state m2).history := by
  cases h : toModName s with
  | none => simp [fail_module, h]
  | some m =>
      by_cases hm : m2 = m <;> simp [fail_module, h, add_log, updState, hm]

theorem recover_route_seq_hist (s : String) (p : Bool) (t : String) (sys : Sys)
    (m2 : ModName) :
    ((recover_route s p t sys).state m2).seq = (sys.state m2).seq ∧
    ((recover_route s p t sys).state m2).history = (sys.state m2).history := by
  cases h : toModName s with
  | none => simp [recover_route, h]
  | some m =>
      have h1 := recover_state_frame m p t
        (updState m (fun st => { st with failed := false, status := "Recovering..." }) sys) m2
      have h2 := updState_seq_hist m
        (fun st => { st with failed := false, status := "Recovering..." }) sys m2
        (fun st => rfl) (fun st => rfl)
      simp only [recover_route, h]
      exact ⟨h1.1.trans h2.1, h1.2.trans h2.2⟩

theorem tick_seq_hist_other (m : ModName) (o : TickOracle) (p : Bool) (sys : Sys)
    (m2 : ModName) (hm : m2 ≠ m) :
    ((module_loop_iter m o p sys).state m2).seq = (sys.state m2).seq ∧
    ((module_loop_iter m o p sys).state m2).history = (sys.state m2).history := by
  by_cases hf : (sys.state m).failed
  · have heq : module_loop_iter m o p sys
        = recover_module m p o.timeStr
            (updState m (fun st => { st with status := "Recovering..." }) sys) := by
      simp [module_loop_iter, hf]
    rw [heq, recover_state_other _ _ _ _ _ hm, updState_state_other _ _ _ _ hm]
    exact ⟨rfl, rfl⟩
  · unfold module_loop_iter
    simp only [hf, Bool.false_eq_true, if_false]
    split_ifs <;> simp [updState, add_log, hm]

theorem tick_inv (m : ModName) (o : TickOracle) (p : Bool) (sys : Sys)
    (h : histSeqInv sys) : histSeqInv (module_loop_iter m o p sys) := by
  intro m2
  by_cases hm : m2 = m
  · subst hm
    by_cases hf : (sys.state m2).failed
    · have heq : module_loop_iter m2 o p sys
          = recover_module m2 p o.timeStr
              (updState m2 (fun st => { st with status := "Recovering..." }) sys) := by
        simp [module_loop_iter, hf]
      have h1 := recover_state_frame m2 p o.timeStr
        (updState m2 (fun st => { st with status := "Recovering..." }) sys) m2
      have h2 := updState_seq_hist m2 (fun st => { st with status := "Recovering..." })
        sys m2 (fun st => rfl) (fun st => rfl)
      rw [heq, h1.1, h1.2, h2.1, h2.2]
      exact h m2
    · have hs := tick_sample m2 o p sys (by simpa using hf)
      rw [hs.2.1, hs.2.2, h m2]
      omega
  · have hother := tick_seq_hist_other m o p sys m2 hm
    rw [hother.1, hother.2]
    exact h m2

theorem applyOp_inv (sys : Sys) (op : Op) (h : histSeqInv sys) :
    histSeqInv (applyOp sys op) := by
  cases op with
  | tick m o p => exact tick_inv m o p sys h
  | saveComplete m v t e ok =>
      intro m2
      simp only [applyOp]
      have hf := job_state_frame m v t e ok sys m2
      rw [hf.1, hf.2]; exact h m2
  | failRoute s t =>
      intro m2
      simp only [applyOp]
      have hf := fail_module_seq_hist s t sys m2
      rw [hf.1, hf.2]; exact h m2
  | recoverRouteEv s p t =>
      intro m2
      simp only [applyOp]
      have hf := recover_route_seq_hist s p t sys m2
      rw [hf.1, hf.2]; exact h m2
  | resetEv r l t =>
      intro m2
      simp only [applyOp]
      rw [reset_state_def]
      simp [initModuleState]
  | loopStart m now =>
      intro m2
      simp only [applyOp]
      unfold module_loop_init
      have hf := updState_seq_hist m
        (fun st => { st with last_checkpoint_time_epoch := now - (m.interval / 2 : ℕ) })
        sys m2 (fun st => rfl) (fun st => rfl)
      rw [hf.1, hf.2]; exact h m2

theorem foldl_inv (ops : List Op) (sys : Sys) (h : histSeqInv sys) :
    histSeqInv (ops.foldl applyOp sys) := by
  induction ops generalizing sys with
  | nil => exact h
  | cons op rest ih => exact ih (applyOp sys op) (applyOp_inv sys op h)

/-- Claim C3: in every state reachable by any interleaving of worker
iterations, save-task completions, manual routes, resets and worker
start-ups, the history length of every module is at most 300, and is exactly
`min seq 300` — with `seq` the number of samples since the last reset. The
equality is proved without the never-failed proviso of the claim, since
failed iterations advance neither `seq` nor `history`; the claimed guarded
form follows a fortiori. -/
theorem claim_C3 (ops : List Op) (m : ModName) :
    (((run ops).state m).history).length ≤ 300 ∧
    (((run ops).state m).history).length = min ((run ops).state m).seq 300 := by
  have h : histSeqInv (run ops) := foldl_inv ops initSys (fun m2 => rfl)
  exact ⟨by rw [h m]; exact min_le_right _ _, h m⟩

end Monitor
